import Mathlib

/-!
Shallow embedding of the CineBookAPI owner authentication and registration
slice: the marshmallow schemas (`src/owner/schema.py`, `src/owner_auth/schema.py`,
`src/owner_detail/schema.py`), the SQLAlchemy models (`src/owner/model.py`,
`src/owner_detail/model.py`), the persistence gateway (`src/main/database/db_manager.py`)
and the auth service/controller/guard (`src/owner_auth/service.py`,
`src/owner_auth/controller.py`, `src/owner_auth/utils.py`).

Relational rows are records, the store is three lists of rows, UUID values are
strings, datetimes are integer day counts, and each service is an explicit
function from input and durable store to result and durable store.
-/

/-! ## SHA-256 (embedding of `hashlib.sha256(...).hexdigest()` over UTF-8 bytes)

32-bit machine words are `Nat` values reduced mod 2^32.
-/

/-- Reduce a natural number to a 32-bit word. -/
def w32 (n : Nat) : Nat := n % 4294967296

/-- Right rotation of a 32-bit word by `n` bits. -/
def rotr32 (n x : Nat) : Nat := w32 ((x >>> n) ||| (x <<< (32 - n)))

/-- SHA-256 big sigma 0. -/
def bsig0 (x : Nat) : Nat := (rotr32 2 x) ^^^ (rotr32 13 x) ^^^ (rotr32 22 x)

/-- SHA-256 big sigma 1. -/
def bsig1 (x : Nat) : Nat := (rotr32 6 x) ^^^ (rotr32 11 x) ^^^ (rotr32 25 x)

/-- SHA-256 small sigma 0. -/
def ssig0 (x : Nat) : Nat := (rotr32 7 x) ^^^ (rotr32 18 x) ^^^ (x >>> 3)

/-- SHA-256 small sigma 1. -/
def ssig1 (x : Nat) : Nat := (rotr32 17 x) ^^^ (rotr32 19 x) ^^^ (x >>> 10)

/-- SHA-256 choice function. -/
def sha256Ch (x y z : Nat) : Nat := (x &&& y) ^^^ ((x ^^^ 4294967295) &&& z)

/-- SHA-256 majority function. -/
def sha256Maj (x y z : Nat) : Nat := (x &&& y) ^^^ (x &&& z) ^^^ (y &&& z)

/-- The 64 SHA-256 round constants. -/
def sha256K : List Nat :=
  [1116352408, 1899447441, 3049323471, 3921009573,
   961987163, 1508970993, 2453635748, 2870763221,
   3624381080, 310598401, 607225278, 1426881987,
   1925078388, 2162078206, 2614888103, 3248222580,
   3835390401, 4022224774, 264347078, 604807628,
   770255983, 1249150122, 1555081692, 1996064986,
   2554220882, 2821834349, 2952996808, 3210313671,
   3336571891, 3584528711, 113926993, 338241895,
   666307205, 773529912, 1294757372, 1396182291,
   1695183700, 1986661051, 2177026350, 2456956037,
   2730485921, 2820302411, 3259730800, 3345764771,
   3516065817, 3600352804, 4094571909, 275423344,
   430227734, 506948616, 659060556, 883997877,
   958139571, 1322822218, 1537002063, 1747873779,
   1955562222, 2024104815, 2227730452, 2361852424,
   2428436474, 2756734187, 3204031479, 3329325298]

/-- The SHA-256 initial hash value. -/
def sha256H0 : List Nat :=
  [1779033703, 3144134277, 1013904242, 2773480762,
   1359893119, 2600822924, 528734635, 1541459225]

/-- Pack a big-endian byte list into 32-bit words, four bytes per word. -/
def bytesToWords : List Nat → List Nat
  | b0 :: b1 :: b2 :: b3 :: rest =>
      ((b0 <<< 24) ||| (b1 <<< 16) ||| (b2 <<< 8) ||| b3) :: bytesToWords rest
  | _ => []

/-- Extend a 16-word block to the 64-word message schedule, adding `k` words. -/
def extendSchedule (ws : List Nat) : Nat → List Nat
  | 0 => ws
  | k + 1 =>
      let i := ws.length
      let fresh := w32 (ssig1 (ws.getD (i - 2) 0) + ws.getD (i - 7) 0 +
        ssig0 (ws.getD (i - 15) 0) + ws.getD (i - 16) 0)
      extendSchedule (ws ++ [fresh]) k

/-- One SHA-256 compression round over the eight working registers. -/
def compressRound (regs : List Nat) (k w : Nat) : List Nat :=
  match regs with
  | [a, b, c, d, e, f, g, h] =>
      let t1 := w32 (h + bsig1 e + sha256Ch e f g + k + w)
      let t2 := w32 (bsig0 a + sha256Maj a b c)
      [w32 (t1 + t2), a, b, c, w32 (d + t1), e, f, g]
  | other => other

/-- Compress one 64-byte block into the running hash value. -/
def compressBlock (h : List Nat) (block : List Nat) : List Nat :=
  let ws := extendSchedule (bytesToWords block) 48
  let regs := (sha256K.zip ws).foldl (fun r kw => compressRound r kw.1 kw.2) h
  h.zipWith (fun a b => w32 (a + b)) regs

/-- Split a byte list into consecutive 64-byte chunks; the fuel argument
bounds the number of chunks and is always supplied as the list length. -/
def chunk64 (fuel : Nat) (bs : List Nat) : List (List Nat) :=
  match fuel, bs with
  | _, [] => []
  | 0, _ => []
  | f + 1, l => l.take 64 :: chunk64 f (l.drop 64)

/-- Fold the compression function over a list of 64-byte blocks. -/
def processBlocks (h : List Nat) : List (List Nat) → List Nat
  | [] => h
  | b :: rest => processBlocks (compressBlock h b) rest

/-- The 8-byte big-endian encoding of a message bit length. -/
def lenBytes (n : Nat) : List Nat :=
  [(n >>> 56) &&& 255, (n >>> 48) &&& 255, (n >>> 40) &&& 255, (n >>> 32) &&& 255,
   (n >>> 24) &&& 255, (n >>> 16) &&& 255, (n >>> 8) &&& 255, n &&& 255]

/-- SHA-256 padding: append `0x80`, zeros to 56 mod 64, then the bit length. -/
def sha256Pad (msg : List Nat) : List Nat :=
  let padZeros := (119 - msg.length % 64) % 64
  msg ++ [0x80] ++ List.replicate padZeros 0 ++ lenBytes (8 * msg.length)

/-- Lowercase hexadecimal digit for a value below 16. -/
def hexDigit (n : Nat) : Char :=
  if n < 10 then Char.ofNat (48 + n) else Char.ofNat (87 + n)

/-- Eight lowercase hex characters of one 32-bit word, most significant first. -/
def wordHexChars (w : Nat) : List Char :=
  [hexDigit ((w >>> 28) &&& 15), hexDigit ((w >>> 24) &&& 15),
   hexDigit ((w >>> 20) &&& 15), hexDigit ((w >>> 16) &&& 15),
   hexDigit ((w >>> 12) &&& 15), hexDigit ((w >>> 8) &&& 15),
   hexDigit ((w >>> 4) &&& 15), hexDigit (w &&& 15)]

/-- UTF-8 encoding of one character as a byte list. -/
def utf8EncodeChar (c : Char) : List Nat :=
  let n := c.toNat
  if n < 0x80 then [n]
  else if n < 0x800 then
    [0xC0 ||| (n >>> 6), 0x80 ||| (n &&& 0x3F)]
  else if n < 0x10000 then
    [0xE0 ||| (n >>> 12), 0x80 ||| ((n >>> 6) &&& 0x3F), 0x80 ||| (n &&& 0x3F)]
  else
    [0xF0 ||| (n >>> 18), 0x80 ||| ((n >>> 12) &&& 0x3F),
     0x80 ||| ((n >>> 6) &&& 0x3F), 0x80 ||| (n &&& 0x3F)]

/-- UTF-8 byte sequence of a string (`str.encode` in the source). -/
def utf8Bytes (s : String) : List Nat :=
  (s.data.map utf8EncodeChar).flatten

/-- `hashlib.sha256(s.encode("utf-8")).hexdigest()`: the lowercase hex digest
of the SHA-256 of the UTF-8 encoding of `s`. -/
def sha256Hex (s : String) : String :=
  let padded := sha256Pad (utf8Bytes s)
  let digest := processBlocks sha256H0 (chunk64 padded.length padded)
  String.mk (digest.map wordHexChars).flatten

/-! ## Data model

Rows of the three tables (`owners`, `owner_details`, and the session table of
`OwnerSessionModel`), with UUID columns as strings and datetime columns as
integer day counts. `Store` is the durable relational state.
-/

/-- A row of the `owners` table (`OwnerModel` in `src/owner/model.py`). -/
structure OwnerRow where
  id : String
  email : String
  phone : Nat
  password : String
deriving DecidableEq

/-- The JSON address value stored in `owner_details.address`. -/
structure AddressVal where
  address_line_1 : String
  address_line_2 : String
  city : String
  state : String
  country : String
  pincode : Nat
deriving DecidableEq

/-- A row of the `owner_details` table (`OwnerDetailModel` in
`src/owner_detail/model.py`). `dob` and `owner_id` are `Option` because the
corresponding object attributes may be left unset by the flow even though the
columns are declared `nullable=False`; an unset value is a NULL at insert. -/
structure OwnerDetailRow where
  id : String
  name : String
  dob : Option Int
  gender : String
  address : AddressVal
  owner_id : Option String
deriving DecidableEq

/-- A session row. Modelled from the spec: `OwnerSessionModel`
(`src/owner_auth/model.py`) is not present under src/; the spec's Session
record has a `session_id` bearer identifier and an `owner_id` foreign key. -/
structure SessionRow where
  session_id : String
  owner_id : String
deriving DecidableEq

/-- The durable relational store: the three tables. -/
structure Store where
  owners : List OwnerRow
  details : List OwnerDetailRow
  sessions : List SessionRow
deriving DecidableEq

/-- Column defaults captured once at class-definition time: `OwnerModel.id`
and `OwnerDetailModel.id` are declared with `default=uuid1()`, which calls
`uuid1` a single time when the model class is defined, so one fixed UUID value
serves as the default for every row inserted in the process lifetime. -/
structure ClassDefaults where
  ownerId : String
  detailId : String
deriving DecidableEq

/-! ## Schema validation

Embeddings of the marshmallow schemas. A load returns `Except` with the list
of violated constraints, mirroring marshmallow's collection of every field
error rather than only the first.
-/

/-- One violated validation constraint. -/
inductive FieldErr where
  | emailRequired
  | emailInvalid
  | phoneRequired
  | phoneRange
  | passwordRequired
  | passwordLength
  | atLeastOne
  | nameRequired
  | nameLength
  | dobUnderage
  | genderRequired
  | genderInvalid
  | addressRequired
  | addressLine1Length
  | addressLine2Length
  | cityLength
  | stateLength
  | countryLength
  | pincodeRange
deriving DecidableEq

/-- Combine two error-collecting results, concatenating error lists
(marshmallow reports every violated field). -/
def collectErrs {a b : Type} (x : Except (List FieldErr) a)
    (y : Except (List FieldErr) b) : Except (List FieldErr) (a × b) :=
  match x, y with
  | .ok va, .ok vb => .ok (va, vb)
  | .error ea, .error eb => .error (ea ++ eb)
  | .error ea, .ok _ => .error ea
  | .ok _, .error eb => .error eb

/-- Split a character list at every occurrence of `sep`. -/
def splitAtChar (sep : Char) : List Char → List (List Char)
  | [] => [[]]
  | c :: rest =>
      let r := splitAtChar sep rest
      if c = sep then [] :: r
      else
        match r with
        | [] => [[c]]
        | hd :: tl => (c :: hd) :: tl

/-- Model of marshmallow's `validate.Email` syntax check: exactly one `@`
separating a nonempty local part from a domain that contains an interior
dot. -/
def isValidEmail (s : String) : Bool :=
  match splitAtChar '@' s.data with
  | [user, domain] =>
      !user.isEmpty && !domain.isEmpty &&
      domain.contains '.' &&
      domain.headD ' ' != '.' && domain.getLastD ' ' != '.'
  | _ => false

/-- `fields.Email(required=True)` of `OwnerSchema`. -/
def loadEmailRequired : Option String → Except (List FieldErr) String
  | none => .error [.emailRequired]
  | some e => if isValidEmail e then .ok e else .error [.emailInvalid]

/-- `fields.Number(validate=Range(1000000000, 9999999999), required=True)`
of `OwnerSchema`. -/
def loadPhoneRequired : Option Nat → Except (List FieldErr) Nat
  | none => .error [.phoneRequired]
  | some p =>
      if 1000000000 ≤ p && p ≤ 9999999999 then .ok p else .error [.phoneRange]

/-- `fields.Str(validate=Length(8, 16), required=True)`: the length validator
runs on whatever string reaches field deserialization. -/
def loadPasswordRequired : Option String → Except (List FieldErr) String
  | none => .error [.passwordRequired]
  | some p =>
      if 8 ≤ p.length && p.length ≤ 16 then .ok p else .error [.passwordLength]

/-- Raw payload for `OwnerSchema.load` (`data.get("owner", {})`). -/
structure OwnerInput where
  email : Option String
  phone : Option Nat
  password : Option String
deriving DecidableEq

/-- The mapping produced by a successful `OwnerSchema.load`. -/
structure OwnerValidated where
  email : String
  phone : Nat
  password : String
deriving DecidableEq

/-- `OwnerSchema.process_input` (`src/owner/schema.py`): the `@pre_load` hook
replaces the password with `hashlib.sha256(password.encode("utf-8")).hexdigest()`
before field deserialization and validation run. -/
def process_input_hash (p : String) : String := sha256Hex p

/-- `OwnerSchema.load`: the `@pre_load` hook hashes the password first, then
the email, phone, and password fields are deserialized and validated, so the
`Length(8, 16)` validator is applied to the 64-character hex digest. -/
def ownerSchemaLoad (raw : OwnerInput) : Except (List FieldErr) OwnerValidated :=
  let pre : OwnerInput := { raw with password := raw.password.map process_input_hash }
  match collectErrs (loadEmailRequired pre.email)
      (collectErrs (loadPhoneRequired pre.phone) (loadPasswordRequired pre.password)) with
  | .error es => .error es
  | .ok (e, p, pw) => .ok { email := e, phone := p, password := pw }

/-- Raw payload for `OwnerLoginSchema.load`. -/
structure LoginInput where
  email : Option String
  phone : Option Nat
  password : Option String
deriving DecidableEq

/-- The mapping produced by a successful `OwnerLoginSchema.load`: exactly the
fields present in the input, with the password hashed by the `@post_load`
hook. -/
structure LoginValidated where
  email : Option String
  phone : Option Nat
  password : String
deriving DecidableEq

/-- `fields.Email()` of `OwnerLoginSchema`: optional, validated when present. -/
def loadEmailOptional : Option String → Except (List FieldErr) (Option String)
  | none => .ok none
  | some e => if isValidEmail e then .ok (some e) else .error [.emailInvalid]

/-- `fields.Int(validate=Range(1000000000, 9999999999))` of `OwnerLoginSchema`:
optional, validated when present. -/
def loadPhoneOptional : Option Nat → Except (List FieldErr) (Option Nat)
  | none => .ok none
  | some p =>
      if 1000000000 ≤ p && p ≤ 9999999999 then .ok (some p)
      else .error [.phoneRange]

/-- `OwnerLoginSchema.hash_password` (`src/owner_auth/schema.py`): the
`@post_load` hook replaces the password with
`hashlib.sha256(password.encode("utf-8")).hexdigest()`. -/
def login_hash_password (p : String) : String := sha256Hex p

/-- `OwnerLoginSchema.load`: field deserialization and validation run on the
raw values; `validate_at_least_one_field` (a `@validates_schema` hook, skipped
when field errors exist) then requires email or phone; on success the
`@post_load` hook hashes the password. -/
def ownerLoginSchemaLoad (raw : LoginInput) : Except (List FieldErr) LoginValidated :=
  match collectErrs (loadEmailOptional raw.email)
      (collectErrs (loadPhoneOptional raw.phone) (loadPasswordRequired raw.password)) with
  | .error es => .error es
  | .ok (e, p, pw) =>
      if raw.email = none ∧ raw.phone = none then .error [.atLeastOne]
      else .ok { email := e, phone := p, password := login_hash_password pw }

/-! ### Owner-detail schema (`src/owner_detail/schema.py`) -/

/-- Raw payload for `AddressSchema.load` (nested under `address`). -/
structure AddressInput where
  address_line_1 : Option String
  address_line_2 : Option String
  city : Option String
  state : Option String
  country : Option String
  pincode : Option Nat
deriving DecidableEq

/-- A required string field with a `Length(lo, hi)` validator. -/
def loadStrLen (lo hi : Nat) (missingErr lenErr : FieldErr) :
    Option String → Except (List FieldErr) String
  | none => .error [missingErr]
  | some s => if lo ≤ s.length && s.length ≤ hi then .ok s else .error [lenErr]

/-- `AddressSchema.load`: every field required, lines 10-40 characters, city,
state and country 3-20 characters, pincode in [100000, 999999]. -/
def addressSchemaLoad (raw : AddressInput) : Except (List FieldErr) AddressVal :=
  let pin : Except (List FieldErr) Nat :=
    match raw.pincode with
    | none => .error [.pincodeRange]
    | some p => if 100000 ≤ p && p ≤ 999999 then .ok p else .error [.pincodeRange]
  match collectErrs (loadStrLen 10 40 .addressLine1Length .addressLine1Length raw.address_line_1)
      (collectErrs (loadStrLen 10 40 .addressLine2Length .addressLine2Length raw.address_line_2)
        (collectErrs (loadStrLen 3 20 .cityLength .cityLength raw.city)
          (collectErrs (loadStrLen 3 20 .stateLength .stateLength raw.state)
            (collectErrs (loadStrLen 3 20 .countryLength .countryLength raw.country) pin)))) with
  | .error es => .error es
  | .ok (l1, l2, city, st, country, pin) =>
      .ok { address_line_1 := l1, address_line_2 := l2, city := city,
            state := st, country := country, pincode := pin }

/-- `fields.Enum(Gender, required=True)`: marshmallow's enum field with the
default `by_value=False` accepts the member names `MALE`, `FEMALE`, `OTHER`. -/
def loadGenderRequired : Option String → Except (List FieldErr) String
  | none => .error [.genderRequired]
  | some g =>
      if g = "MALE" ∨ g = "FEMALE" ∨ g = "OTHER" then .ok g
      else .error [.genderInvalid]

/-- `OwnerDetailSchema.validate_age`: the violations produced by the `dob`
field validator at time `now`, with datetimes as day counts; the age is the
elapsed day count floor-divided by 365 (Python `//`), and the field itself is
optional because its `required` flag is passed under the misspelled keyword
`reqired`, which marshmallow treats as metadata. -/
def dobFieldErrors (now : Int) : Option Int → List FieldErr
  | none => []
  | some dob =>
      let age := Int.fdiv (now - dob) 365
      if age < 18 then [.dobUnderage] else []

/-- Raw payload for `OwnerDetailSchema.load`. -/
structure OwnerDetailInput where
  name : Option String
  dob : Option Int
  gender : Option String
  address : Option AddressInput
  owner_id : Option String
deriving DecidableEq

/-- The mapping produced by a successful `OwnerDetailSchema.load`. -/
structure DetailValidated where
  name : String
  dob : Option Int
  gender : String
  address : AddressVal
  owner_id : Option String
deriving DecidableEq

/-- The `fields.Nested(AddressSchema, required=True)` field. -/
def loadAddressRequired : Option AddressInput → Except (List FieldErr) AddressVal
  | none => .error [.addressRequired]
  | some a => addressSchemaLoad a

/-- The optional `dob` field: validated by `validate_age` when present. -/
def loadDobOptional (now : Int) (dob : Option Int) :
    Except (List FieldErr) (Option Int) :=
  match dobFieldErrors now dob with
  | [] => .ok dob
  | es => .error es

/-- `OwnerDetailSchema.load` at time `now`: `name` required with length 3-20,
`dob` optional with the age check, `gender` a required enum, `address` a
required nested address, `owner_id` an optional load-only UUID passed
through. -/
def ownerDetailSchemaLoad (now : Int) (raw : OwnerDetailInput) :
    Except (List FieldErr) DetailValidated :=
  match collectErrs (loadStrLen 3 20 .nameRequired .nameLength raw.name)
      (collectErrs (loadDobOptional now raw.dob)
        (collectErrs (loadGenderRequired raw.gender) (loadAddressRequired raw.address))) with
  | .error es => .error es
  | .ok (nm, dob, g, addr) =>
      .ok { name := nm, dob := dob, gender := g, address := addr,
            owner_id := raw.owner_id }

/-! ## Persistence gateway and services

`MyDB.session` (`src/main/database/db_manager.py`) opens a session, yields it,
and closes it on every exit path; closing a session whose transaction was not
explicitly committed rolls the pending changes back, so only changes present
at an explicit `commit` reach the durable store.

`MyDB.transaction` is called by `register_service` and documented in
`src/main/database/__init__.py` but its definition is not under src/.
-/

/-- A session scope over `durable`: the body produced `pending`; the durable
state after the scope is `pending` when the body committed and `durable`
otherwise (`Session.close` rolls an uncommitted transaction back). -/
def sessionScopeResult (durable pending : Store) (committed : Bool) : Store :=
  if committed then pending else durable

/-- An operation a service performs against the store. -/
inductive StoreOp where
  | queryOwners
  | querySessions
  | addOwner
  | addDetail
  | addSession
  | deleteSessions
  | commit
deriving DecidableEq

/-- `OwnerModel(**serialize_owner_data)` followed by the flush that applies
the column default: the id is the fixed class-definition-time UUID
`defaults.ownerId`, since registration supplies no explicit id. -/
def mkOwnerRow (defaults : ClassDefaults) (v : OwnerValidated) : OwnerRow :=
  { id := defaults.ownerId, email := v.email, phone := v.phone,
    password := v.password }

/-- `OwnerDetailModel(**serialize_owner_detail_data)` with the column default
for its id applied at insert. -/
def mkDetailRow (defaults : ClassDefaults) (v : DetailValidated) : OwnerDetailRow :=
  { id := defaults.detailId, name := v.name, dob := v.dob, gender := v.gender,
    address := v.address, owner_id := v.owner_id }

/-- Whether inserting `o` into `owners` violates a constraint the store
enforces at flush: the primary key on `id` or the unique constraints on
`email` and `phone`. -/
def ownerInsertConflict (working : Store) (o : OwnerRow) : Bool :=
  working.owners.any (fun r => r.id == o.id || r.email == o.email || r.phone == o.phone)

/-- Whether inserting `d` into `owner_details` satisfies the constraints the
store enforces: `dob` and `owner_id` are `nullable=False`, `owner_id` is a
unique foreign key into `owners`, and `id` is the primary key. -/
def detailInsertOk (working : Store) (d : OwnerDetailRow) : Bool :=
  (match d.dob with | some _ => true | none => false) &&
  (match d.owner_id with
   | some oid => working.owners.any (fun o => o.id == oid)
   | none => false) &&
  !(working.details.any (fun r => r.id == d.id)) &&
  !(working.details.any (fun r => r.owner_id == d.owner_id))

/-- The error kinds `register_service` surfaces to the controller. -/
inductive RegErr where
  | ownerValidation (es : List FieldErr)
  | ownerConflict
  | detailValidation (es : List FieldErr)
  | detailInsert
deriving DecidableEq

/-- The registration request body: `data.get("owner", {})` and
`data.get("owner_detail", {})`. -/
structure RegisterInput where
  owner : OwnerInput
  owner_detail : OwnerDetailInput
deriving DecidableEq

/-- `OwnerSessionService.register_service` (`src/owner_auth/service.py`) at
time `now`: inside `db.transaction()` it loads the owner payload, adds and
flushes the owner row (obtaining its id), injects that id as `owner_id` into
the detail payload, loads it, and adds the detail row.

Modelled from the spec: `MyDB.transaction` is absent from src/ (only its
caller and the docs in `src/main/database/__init__.py` exist); per the spec's
read-write transaction contract and registration state machine, the scope
commits the body's writes on success and rolls back on any failure, so the
function returns the error (if any) together with the durable store after the
scope. -/
def register_service (defaults : ClassDefaults) (now : Int) (store : Store)
    (data : RegisterInput) : Option RegErr × Store :=
  match ownerSchemaLoad data.owner with
  | .error es => (some (.ownerValidation es), store)
  | .ok v =>
      let o := mkOwnerRow defaults v
      match ownerInsertConflict store o with
      | true => (some .ownerConflict, store)
      | false =>
          let working : Store := { store with owners := store.owners ++ [o] }
          let rawDetail : OwnerDetailInput := { data.owner_detail with owner_id := some o.id }
          match ownerDetailSchemaLoad now rawDetail with
          | .error es => (some (.detailValidation es), store)
          | .ok dv =>
              let d := mkDetailRow defaults dv
              match detailInsertOk working d with
              | false => (some .detailInsert, store)
              | true => (none, { working with details := working.details ++ [d] })

/-- The error kinds `login_service` surfaces to the controller. -/
inductive LoginErr where
  | validation (es : List FieldErr)
  | invalidCredentials
deriving DecidableEq

/-- The `filter_by(**serialized_data)` equality filter: every key present in
the loaded login mapping must equal the row's column. -/
def loginFilterMatches (v : LoginValidated) (o : OwnerRow) : Bool :=
  (match v.email with | some e => o.email == e | none => true) &&
  (match v.phone with | some p => o.phone == p | none => true) &&
  o.password == v.password

/-- `OwnerSessionService.login_service` with `freshSid` the session id minted
for a new session row: inside `db.session()` it loads the credentials,
queries for the first matching owner, raises on no match, and otherwise adds
a session row and explicitly commits. The returned trace lists the store
operations the body executed, in order.

The session row construction is modelled from the spec because
`OwnerSessionModel` is absent from src/: a fresh `session_id` bound to the
found owner's id. -/
def login_service (freshSid : String) (store : Store) (raw : LoginInput) :
    Except LoginErr String × Store × List StoreOp :=
  match ownerLoginSchemaLoad raw with
  | .error es => (.error (.validation es), store, [])
  | .ok v =>
      match store.owners.find? (fun o => loginFilterMatches v o) with
      | none => (.error .invalidCredentials, store, [.queryOwners])
      | some o =>
          let sess : SessionRow := { session_id := freshSid, owner_id := o.id }
          let pending : Store := { store with sessions := store.sessions ++ [sess] }
          (.ok freshSid, sessionScopeResult store pending true,
           [.queryOwners, .addSession, .commit])

/-- The outcome of the `is_owner_loggedin` guard. -/
inductive GuardResult where
  | unauthorized
  | proceed
deriving DecidableEq

/-- Request headers as a key-value list; `header["Authorization"]` is the
first entry with that key. -/
def authHeader (headers : List (String × String)) : Option String :=
  (headers.find? (fun kv => kv.1 == "Authorization")).map (fun kv => kv.2)

/-- `is_owner_loggedin` (`src/owner_auth/utils.py`): abort 401 when the
`Authorization` header is absent; otherwise query the session table for a row
whose `session_id` equals the header value inside `db.session()`, abort 401
when none exists, and run the wrapped function otherwise. -/
def is_owner_loggedin (headers : List (String × String)) (store : Store) :
    GuardResult :=
  match authHeader headers with
  | none => .unauthorized
  | some tok =>
      match store.sessions.find? (fun s => s.session_id == tok) with
      | none => .unauthorized
      | some _ => .proceed

/-- `OwnerSessionService.logout_service`: read `header["Authorization"]`
(`none` models the `KeyError` on a missing key), then inside `db.session()`
issue a bulk delete of the session rows whose `session_id` equals the token.
The body never calls `commit`, so the scope's close rolls the delete back and
the durable store is unchanged. -/
def logout_service (headers : List (String × String)) (store : Store) :
    Option Store :=
  match authHeader headers with
  | none => none
  | some tok =>
      let pending : Store :=
        { store with sessions := store.sessions.filter (fun s => !(s.session_id == tok)) }
      some (sessionScopeResult store pending false)

/-- The `/owner/logout` route (`src/owner_auth/controller.py`): the
`is_owner_loggedin` decorator guards the handler, which calls
`logout_service` and returns 200; an unhandled exception maps to 500 and a
guard failure aborts with 401. The result is the HTTP status with the durable
store after the request. -/
def logout_controller (headers : List (String × String)) (store : Store) :
    Nat × Store :=
  match is_owner_loggedin headers store with
  | .unauthorized => (401, store)
  | .proceed =>
      match logout_service headers store with
      | some store2 => (200, store2)
      | none => (500, store)

/-! ## Concrete fixtures -/

/-- A store holding one live session row and nothing else. -/
def store0 : Store :=
  { owners := [], details := [], sessions := [{ session_id := "t0", owner_id := "o0" }] }

/-- Headers carrying the session token of `store0`. -/
def hdr0 : List (String × String) := [("Authorization", "t0")]

/-- A concrete valid address payload. -/
def addr0 : AddressInput :=
  { address_line_1 := some "12 Baker Street", address_line_2 := some "Flat 221B West",
    city := some "London", state := some "Greater London",
    country := some "England", pincode := some 123456 }

/-- A concrete owner-detail payload with a dob at day 0. -/
def detailRaw0 : OwnerDetailInput :=
  { name := some "Ann", dob := some 0, gender := some "FEMALE",
    address := some addr0, owner_id := none }

/-- A concrete owner-detail payload with no dob at all. -/
def detailRaw1 : OwnerDetailInput :=
  { name := some "Ann", dob := none, gender := some "FEMALE",
    address := some addr0, owner_id := none }

/-! ## Helper lemmas -/

/-- Whether an `Except` result is a success. -/
def exceptOk {e a : Type} : Except e a → Bool
  | .ok _ => true
  | .error _ => false

instance exceptDecEq {e a : Type} [DecidableEq e] [DecidableEq a] :
    DecidableEq (Except e a) := fun x y =>
  match x, y with
  | .ok vx, .ok vy => decidable_of_iff (vx = vy) (by simp)
  | .error ex, .error ey => decidable_of_iff (ex = ey) (by simp)
  | .ok vx, .error ey => isFalse (fun hc => Except.noConfusion hc)
  | .error ex, .ok vy => isFalse (fun hc => Except.noConfusion hc)

/-- The SHA-256 embedding reproduces the standard test vector for `abc`. -/
theorem sha256Hex_abc :
    sha256Hex "abc"
      = "ba7816bf8f01cfea414140de5dae2223b00361a396177a9cb410ff61f20015ad" := by
  decide

/-- A successful `OwnerDetailSchema.load` passes the raw `owner_id` through
unchanged. -/
theorem ownerDetailSchemaLoad_owner_id (now : Int) (raw : OwnerDetailInput)
    (v : DetailValidated) (h : ownerDetailSchemaLoad now raw = .ok v) :
    v.owner_id = raw.owner_id := by
  unfold ownerDetailSchemaLoad at h
  split at h
  · simp at h
  · injection h with h2
    subst h2
    rfl

/-! ## Claims -/

/-- C2: the claim says every owner payload with a syntactically valid email, a
phone in range and a password plaintext of length 8-16 passes
`OwnerSchema.load` with the password replaced by its SHA-256 hex digest. It
fails on the code: the `@pre_load` hook hashes the password before field
validation, so the `Length(8, 16)` validator sees the 64-character digest and
rejects every such payload. This theorem evaluates the validator at the
spec's own scenario payload. -/
theorem owner_schema_rejects_valid_registration :
    ownerSchemaLoad
        { email := some "a@x.com", phone := some 9876543210,
          password := some "password1" }
      = .error [FieldErr.passwordLength] := by
  decide

/-- C3: the claim says a successful logout deletes the session row, so the
guard rejects the same token afterwards. It fails on the code:
`logout_service` issues its bulk delete inside `db.session()` and never
commits, so closing the scope rolls the delete back. Here a logout with the
live token returns 200 yet leaves the store unchanged, and the guard still
accepts the very same token. -/
theorem logout_leaves_session_row :
    logout_controller hdr0 store0 = (200, store0)
    ∧ is_owner_loggedin hdr0 store0 = GuardResult.proceed := by
  decide

/-- C4: the claim says any two Owner rows created by the registration flow,
which supplies no explicit id and relies on the model default, have distinct
ids. It fails on the code: `OwnerModel.id` is declared with
`default=uuid1()`, which evaluates once at class definition, so every owner
the flow creates receives the identical fixed UUID, whatever the payloads. -/
theorem registration_owner_ids_all_equal (defaults : ClassDefaults)
    (v1 v2 : OwnerValidated) :
    (mkOwnerRow defaults v1).id = (mkOwnerRow defaults v2).id := rfl

/-- C8: the password hash computed by the login validator's `@post_load` hook
equals, for every plaintext, the hash computed by the registration
validator's `@pre_load` hook: both are
`hashlib.sha256(plaintext.encode("utf-8")).hexdigest()`. -/
theorem login_hash_equals_registration_hash (p : String) :
    login_hash_password p = process_input_hash p := rfl

/-- C1: registration is atomic. For every input payload, `register_service`
either commits exactly one new Owner row and exactly one new OwnerDetail row
whose `owner_id` equals that Owner's id, or, on any failure at any step
(owner validation, flush conflict, detail validation after the owner insert,
or the detail insert), leaves the durable store exactly as it was, the
read-write transaction scope having rolled the partial writes back. -/
theorem register_service_atomic (defaults : ClassDefaults) (now : Int)
    (store : Store) (data : RegisterInput) :
    (∃ o d, register_service defaults now store data
        = (none, { owners := store.owners ++ [o],
                   details := store.details ++ [d],
                   sessions := store.sessions })
      ∧ d.owner_id = some o.id)
    ∨ (∃ e, register_service defaults now store data = (some e, store)) := by
  unfold register_service
  dsimp only
  split
  · exact Or.inr ⟨_, rfl⟩
  · split
    · exact Or.inr ⟨_, rfl⟩
    · split
      · exact Or.inr ⟨_, rfl⟩
      · rename_i dv hdv
        split
        · exact Or.inr ⟨_, rfl⟩
        · exact Or.inl ⟨_, _, rfl, ownerDetailSchemaLoad_owner_id now _ dv hdv⟩

/-- C5: for every login payload containing neither an email field nor a phone
field, `login_service` fails with a validation error raised by
`OwnerLoginSchema` and performs no operation against the store: the durable
store is returned untouched and the executed operation trace is empty. -/
theorem login_missing_both_fields_fails_first (freshSid : String)
    (store : Store) (raw : LoginInput) (he : raw.email = none)
    (hp : raw.phone = none) :
    ∃ es, login_service freshSid store raw
      = (.error (.validation es), store, ([] : List StoreOp)) := by
  unfold login_service
  cases hl : ownerLoginSchemaLoad raw with
  | error es => exact ⟨es, rfl⟩
  | ok v =>
      exfalso
      unfold ownerLoginSchemaLoad at hl
      split at hl
      · simp at hl
      · simp [he, hp] at hl

/-- C5 witness: the concrete payload carrying only a password fails with the
at-least-one-field violation and an empty trace. -/
theorem login_missing_both_fields_fails_first_witness :
    ∃ es, login_service "s1" store0 { email := none, phone := none, password := some "password1" }
      = (.error (.validation es), store0, ([] : List StoreOp)) :=
  login_missing_both_fields_fails_first "s1" store0
    { email := none, phone := none, password := some "password1" } rfl rfl

/-- C6: the guard rejects every request with no Authorization header and
every request whose header value matches no session row, and lets the
wrapped operation proceed for every request whose header value matches a
session row. -/
theorem guard_rejects_and_accepts (headers : List (String × String))
    (store : Store) :
    (authHeader headers = none →
      is_owner_loggedin headers store = GuardResult.unauthorized)
    ∧ (∀ tok, authHeader headers = some tok →
        (store.sessions.find? (fun s => s.session_id == tok) = none →
          is_owner_loggedin headers store = GuardResult.unauthorized)
        ∧ (∀ srow, store.sessions.find? (fun s => s.session_id == tok) = some srow →
            is_owner_loggedin headers store = GuardResult.proceed)) := by
  refine ⟨fun hnone => ?_, fun tok htok => ⟨fun hmiss => ?_, fun srow hhit => ?_⟩⟩ <;>
    unfold is_owner_loggedin
  · rw [hnone]
  · rw [htok]; dsimp only; rw [hmiss]
  · rw [htok]; dsimp only; rw [hhit]

/-- C6 witness: on `store0`, a request with no Authorization header and a
request with an unknown token are rejected, and the live token proceeds. -/
theorem guard_rejects_and_accepts_witness :
    is_owner_loggedin [] store0 = GuardResult.unauthorized
    ∧ is_owner_loggedin [("Authorization", "zz")] store0 = GuardResult.unauthorized
    ∧ is_owner_loggedin hdr0 store0 = GuardResult.proceed :=
  ⟨(guard_rejects_and_accepts [] store0).1 rfl,
   ((guard_rejects_and_accepts [("Authorization", "zz")] store0).2 "zz" rfl).1 rfl,
   ((guard_rejects_and_accepts hdr0 store0).2 "t0" rfl).2 ⟨"t0", "o0"⟩ rfl⟩

/-- The logout route never changes the durable store: the guard does not
write, and `logout_service` never commits its delete. -/
theorem logout_controller_preserves_store (headers : List (String × String))
    (store store1 : Store) (code : Nat)
    (h : logout_controller headers store = (code, store1)) : store1 = store := by
  unfold logout_controller at h
  split at h
  · cases h; rfl
  · unfold logout_service at h
    cases ha : authHeader headers with
    | none => rw [ha] at h; cases h; rfl
    | some tok => rw [ha] at h; cases h; rfl

/-- C7: logout is idempotent at the endpoint: whenever a first logout with a
token succeeds with 200, a second logout with the same token also returns
200 rather than any error response. -/
theorem logout_idempotent (headers : List (String × String))
    (store store1 : Store)
    (h : logout_controller headers store = (200, store1)) :
    ∃ store2, logout_controller headers store1 = (200, store2) := by
  have hsame : store1 = store := logout_controller_preserves_store headers store store1 200 h
  subst hsame
  exact ⟨store1, h⟩

/-- C7 witness: on `store0`, the first logout with the live token returns 200
and a second logout with the same token returns 200 as well. -/
theorem logout_idempotent_witness :
    ∃ store2, logout_controller hdr0 store0 = (200, store2) :=
  logout_idempotent hdr0 store0 store0 (by decide)

/-- A present dob passes the field validator when the computed age is at
least 18. -/
theorem loadDobOptional_ok (now dobv : Int)
    (h : ¬ Int.fdiv (now - dobv) 365 < 18) :
    loadDobOptional now (some dobv) = .ok (some dobv) := by
  unfold loadDobOptional dobFieldErrors
  simp [h]

/-- A present dob fails the field validator with the underage violation when
the computed age is below 18. -/
theorem loadDobOptional_err (now dobv : Int)
    (h : Int.fdiv (now - dobv) 365 < 18) :
    loadDobOptional now (some dobv) = .error [FieldErr.dobUnderage] := by
  unfold loadDobOptional dobFieldErrors
  simp [h]

/-- C9: on a payload whose other fields are valid, the owner-detail validator
accepts a present dob exactly when the age computed as whole years by floor
division of the elapsed day count by 365 is at least 18, and rejects the
payload with the underage violation when that age is below 18. -/
theorem owner_detail_dob_age_check (now dobv : Int) (raw : OwnerDetailInput)
    (hdob : raw.dob = some dobv)
    (hname : exceptOk (loadStrLen 3 20 FieldErr.nameRequired FieldErr.nameLength raw.name) = true)
    (hg : exceptOk (loadGenderRequired raw.gender) = true)
    (ha : exceptOk (loadAddressRequired raw.address) = true) :
    (18 ≤ Int.fdiv (now - dobv) 365 →
      ∃ v, ownerDetailSchemaLoad now raw = .ok v ∧ v.dob = some dobv)
    ∧ (Int.fdiv (now - dobv) 365 < 18 →
      ∃ es, ownerDetailSchemaLoad now raw = .error es ∧ FieldErr.dobUnderage ∈ es) := by
  cases hn : loadStrLen 3 20 FieldErr.nameRequired FieldErr.nameLength raw.name with
  | error es => rw [hn] at hname; simp [exceptOk] at hname
  | ok nm =>
      cases hgg : loadGenderRequired raw.gender with
      | error es => rw [hgg] at hg; simp [exceptOk] at hg
      | ok g =>
          cases haa : loadAddressRequired raw.address with
          | error es => rw [haa] at ha; simp [exceptOk] at ha
          | ok addr =>
              constructor
              · intro hage
                refine ⟨{ name := nm, dob := some dobv, gender := g,
                          address := addr, owner_id := raw.owner_id }, ?_, rfl⟩
                unfold ownerDetailSchemaLoad
                rw [hn, hgg, haa, hdob, loadDobOptional_ok now dobv (not_lt.mpr hage)]
                rfl
              · intro hage
                refine ⟨[FieldErr.dobUnderage], ?_, by simp⟩
                unfold ownerDetailSchemaLoad
                rw [hn, hgg, haa, hdob, loadDobOptional_err now dobv hage]
                rfl

/-- C9 witness: at day 20000 the dob at day 0 yields age 54 and the payload
is accepted with the dob intact; the underage branch holds vacuously. -/
theorem owner_detail_dob_age_check_witness :
    (18 ≤ Int.fdiv (20000 - 0) 365 →
      ∃ v, ownerDetailSchemaLoad 20000 detailRaw0 = .ok v ∧ v.dob = some 0)
    ∧ (Int.fdiv (20000 - 0) 365 < 18 →
      ∃ es, ownerDetailSchemaLoad 20000 detailRaw0 = .error es
        ∧ FieldErr.dobUnderage ∈ es) :=
  owner_detail_dob_age_check 20000 0 detailRaw0 rfl (by decide) (by decide) (by decide)

/-- C10: the dob field of the owner-detail validator is not required, its
`required` flag having been passed under the misspelled keyword `reqired`:
every payload that omits dob but carries a valid name, gender and address
passes validation at every time `now`, so the age check never runs. -/
theorem owner_detail_dob_not_required (now : Int) (raw : OwnerDetailInput)
    (hdob : raw.dob = none)
    (hname : exceptOk (loadStrLen 3 20 FieldErr.nameRequired FieldErr.nameLength raw.name) = true)
    (hg : exceptOk (loadGenderRequired raw.gender) = true)
    (ha : exceptOk (loadAddressRequired raw.address) = true) :
    ∃ v, ownerDetailSchemaLoad now raw = .ok v ∧ v.dob = none := by
  cases hn : loadStrLen 3 20 FieldErr.nameRequired FieldErr.nameLength raw.name with
  | error es => rw [hn] at hname; simp [exceptOk] at hname
  | ok nm =>
      cases hgg : loadGenderRequired raw.gender with
      | error es => rw [hgg] at hg; simp [exceptOk] at hg
      | ok g =>
          cases haa : loadAddressRequired raw.address with
          | error es => rw [haa] at ha; simp [exceptOk] at ha
          | ok addr =>
              refine ⟨{ name := nm, dob := none, gender := g,
                        address := addr, owner_id := raw.owner_id }, ?_, rfl⟩
              unfold ownerDetailSchemaLoad
              rw [hn, hgg, haa, hdob]
              rfl

/-- C10 witness: the concrete payload without a dob passes validation. -/
theorem owner_detail_dob_not_required_witness :
    ∃ v, ownerDetailSchemaLoad 20000 detailRaw1 = .ok v ∧ v.dob = none :=
  owner_detail_dob_not_required 20000 detailRaw1 rfl (by decide) (by decide) (by decide)
